import Mathlib

/-!
Verification of the CamillaDSP core (`src/loudness.rs` and `src/bin.rs`).

Floating-point values (`f32` / `f64` / `PrcFmt`) are modelled as exact
rationals `ℚ`.  The transcendental library functions `powf` (used only as
`10.0.powf x`) and `log10` are not reimplemented; every statement that needs
them is universally quantified over abstract functions `pow10 log10 : ℚ → ℚ`.
The two shelving biquads owned by the loudness filter live in external code
(`biquad.rs` is not part of this repository snapshot); they are modelled by
abstract per-call transfer functions `hb lb : ℚ → List ℚ → Option (List ℚ)`
taking the currently configured shelf gain and the waveform, with `none`
standing for an `Err` result (which `process_waveform` unwraps, i.e. panics
on).  The waveform is a `List ℚ`.
-/

namespace CamillaDSP

/-- State of the `Loudness` filter (`src/loudness.rs`, `struct Loudness`).
The two `biquad::Biquad` members are represented by the shelf gains that were
last configured into them (`high_gain`, `low_gain`); the `Arc<RwLock<..>>`
shared volume is read once per call and is passed to `process_waveform` as
the explicit argument `shared_vol`. -/
structure Loudness where
  name : String
  ramptime_in_chunks : ℕ
  current_volume : ℚ
  target_volume : ℚ
  ramp_start : ℚ
  ramp_step : ℕ
  samplerate : ℕ
  chunksize : ℕ
  reference_level : ℚ
  high_boost : ℚ
  low_boost : ℚ
  high_gain : ℚ
  low_gain : ℚ
deriving DecidableEq

/-- `get_rel_boost` (`src/loudness.rs` lines 28-36): relative boost
`(reference - level) / 20` clamped to `[0, 1]`. -/
def get_rel_boost (level reference : ℚ) : ℚ :=
  let rel_boost := (reference - level) / 20
  if rel_boost < 0 then 0
  else if 1 < rel_boost then 1
  else rel_boost

/-- Rust `f32::round` (round half away from zero) followed by `as usize`
(which clamps negative values to 0), for nonnegative-or-clamped input. -/
def rust_round_as_usize (q : ℚ) : ℕ :=
  if q < 0 then 0 else (⌊q + 1 / 2⌋).toNat

/-- The `ramptime_in_chunks` computation of `Loudness::from_config`
(`src/loudness.rs` lines 47-48):
`(ramp_time / (1000.0 * chunksize as f32 / samplerate as f32)).round() as usize`. -/
def ramptime_in_chunks_of (ramp_time : ℚ) (chunksize samplerate : ℕ) : ℕ :=
  rust_round_as_usize (ramp_time / (1000 * (chunksize : ℚ) / (samplerate : ℚ)))

/-- The dB value whose 20th-root-of-ten power `make_ramp` takes for the sample
with 0-based index `val` (`src/loudness.rs` lines 84-98): the argument of
`powf` there is `rampDb s val / 20`, with
`ramprange = (target_volume - ramp_start) / ramptime_in_chunks` and
`stepsize = ramprange / chunksize`. -/
def rampDb (s : Loudness) (val : ℕ) : ℚ :=
  s.ramp_start
    + (s.target_volume - s.ramp_start) / (s.ramptime_in_chunks : ℚ)
      * ((s.ramp_step : ℚ) - 1)
    + (val : ℚ)
      * ((s.target_volume - s.ramp_start) / (s.ramptime_in_chunks : ℚ)
          / (s.chunksize : ℚ))

/-- `Loudness::make_ramp` (`src/loudness.rs` lines 84-98): the per-sample
amplitude factors `10.powf(dB/20)` over one chunk. -/
def make_ramp (pow10 : ℚ → ℚ) (s : Loudness) : List ℚ :=
  (List.range s.chunksize).map (fun val => pow10 (rampDb s val / 20))

/-- The volume-setting-changed block at the top of
`Loudness::process_waveform` (`src/loudness.rs` lines 107-121). -/
def update_volume_setting (s : Loudness) (shared_vol : ℚ) : Loudness :=
  if (0.001 : ℚ) < |shared_vol - s.target_volume| then
    if 0 < s.ramptime_in_chunks then
      { s with ramp_start := s.current_volume, target_volume := shared_vol, ramp_step := 1 }
    else
      { s with current_volume := shared_vol, target_volume := shared_vol, ramp_step := 0 }
  else s

/-- The ramping branch of `Loudness::process_waveform` (`src/loudness.rs`
lines 132-165): build the ramp, advance `ramp_step` (wrapping to 0 after the
last step), multiply the waveform element-wise by the ramp (the `iter_mut`
zip leaves any tail beyond the ramp untouched), set `current_volume` to
`20 * log10` of the last ramp gain (`ramp.last().unwrap()`: `none` models the
panic on an empty ramp) and refresh the shelf gains from the new relative
boost. -/
def ramping_step (pow10 log10 : ℚ → ℚ) (s : Loudness) (waveform : List ℚ) :
    Option (Loudness × List ℚ) :=
  let ramp := make_ramp pow10 s
  let ramp_step2 := if s.ramptime_in_chunks < s.ramp_step + 1 then 0 else s.ramp_step + 1
  let waveform2 :=
    (waveform.zip ramp).map (fun p => p.1 * p.2) ++ waveform.drop ramp.length
  match ramp.getLast? with
  | none => none
  | some last_gain =>
    let current := 20 * log10 last_gain
    let relboost := get_rel_boost current s.reference_level
    some ({ s with ramp_step := ramp_step2, current_volume := current,
                   high_gain := relboost * s.high_boost,
                   low_gain := relboost * s.low_boost },
          waveform2)

/-- The final stage of `Loudness::process_waveform` (`src/loudness.rs` lines
166-171): when the relative boost is positive, apply the high-shelf then the
low-shelf biquad (each `.unwrap()`ed: a `none` from `hb`/`lb` is a panic),
otherwise pass the waveform through untouched; then return `Ok(())`. -/
def apply_shelf_biquads (hb lb : ℚ → List ℚ → Option (List ℚ)) (s : Loudness)
    (waveform : List ℚ) : Option (Loudness × List ℚ × Except String Unit) :=
  if 0 < get_rel_boost s.current_volume s.reference_level then
    match hb s.high_gain waveform with
    | none => none
    | some w1 =>
      match lb s.low_gain w1 with
      | none => none
      | some w2 => some (s, w2, Except.ok ())
  else
    some (s, waveform, Except.ok ())

/-- `Loudness::process_waveform` (`src/loudness.rs` lines 106-172).  The
result is `none` when the code panics (an `unwrap` fails), otherwise
`some (new filter state, new waveform, the returned Res value)`. -/
def process_waveform (pow10 log10 : ℚ → ℚ) (hb lb : ℚ → List ℚ → Option (List ℚ))
    (s : Loudness) (shared_vol : ℚ) (waveform : List ℚ) :
    Option (Loudness × List ℚ × Except String Unit) :=
  let s1 := update_volume_setting s shared_vol
  if s1.ramp_step = 0 then
    apply_shelf_biquads hb lb s1
      (waveform.map (fun item => item * pow10 (s1.current_volume / 20)))
  else if s1.ramp_step ≤ s1.ramptime_in_chunks then
    match ramping_step pow10 log10 s1 waveform with
    | none => none
    | some (s2, w2) => apply_shelf_biquads hb lb s2 w2
  else
    apply_shelf_biquads hb lb s1 waveform

/-! ## Supervisor (`src/bin.rs`)

The supervisor loop of `run` is embedded as pure transition functions over a
`RunState`: one for the reload block and one for the status-message dispatch.
Side effects on the world outside the supervisor's own state (barrier waits,
commands sent to the capture thread, pipeline-config sends, thread joins) are
recorded as an ordered `List Action`.  The `Configuration` type and the
external helpers `config_diff`, `validate_config` and `load_config` live in
the library crate, outside this repository snapshot; they are abstract
parameters here. -/

/-- Classification returned by `config::config_diff` (`ConfigChange::None` is
rendered `noChange`). -/
inductive ConfigChange where
  | pipeline
  | mixerParameters
  | filterParameters (names : List String)
  | devices
  | noChange
deriving DecidableEq

/-- `StopReason` (`StopReason::None` is rendered `stopNone`). -/
inductive StopReason where
  | stopNone
  | done
  | captureError (msg : String)
  | playbackError (msg : String)
  | captureFormatChange (rate : ℕ)
  | playbackFormatChange (rate : ℕ)
  | unknownError (msg : String)
deriving DecidableEq

/-- Messages received by the supervisor on the status channel. -/
inductive StatusMessage where
  | playbackReady
  | captureReady
  | playbackError (msg : String)
  | captureError (msg : String)
  | playbackFormatChange (rate : ℕ)
  | captureFormatChange (rate : ℕ)
  | playbackDone
  | captureDone
  | setSpeed (speed : ℚ)
deriving DecidableEq

/-- `ExitState` returned by `run`. -/
inductive ExitState where
  | exitDone
  | restart
deriving DecidableEq

/-- Externally visible effects performed by the supervisor loop, in order. -/
inductive Action where
  | sendExitToCapture
  | sendSetSpeedToCapture
  | sendPipeConf
  | barrierWait
  | joinPlayback
  | joinCapture
deriving DecidableEq

/-- The supervisor-local and shared state manipulated by the loop in `run`
(`src/bin.rs`): the local variables `is_starting`, `pb_ready`, `cap_ready`,
`active_config`, the shared config slots, the shared `stop_reason` and the
two signal atoms. -/
structure RunState (Config : Type) where
  is_starting : Bool
  pb_ready : Bool
  cap_ready : Bool
  active_config : Config
  active_config_shared : Option Config
  new_config_shared : Option Config
  prev_config_shared : Option Config
  stop_reason : StopReason
  signal_reload : Bool
  signal_exit : ℕ
deriving DecidableEq

/-- `get_new_config` (`src/bin.rs` lines 106-150).  `validate` models
`config::validate_config` (its first result is the possibly-mutated config);
`load` models `config::load_config`.  Note that the pending slot is only read
(`.clone()`), never cleared, by this function. -/
def get_new_config {Config : Type}
    (validate : Config → Option String → Except String Config)
    (load : String → Except String Config)
    (config_path : Option String) (new_config_shared : Option Config) :
    Except String Config :=
  match new_config_shared with
  | some conf =>
    match validate conf none with
    | Except.ok conf2 => Except.ok conf2
    | Except.error err => Except.error err
  | none =>
    match config_path with
    | some file =>
      match load file with
      | Except.ok conf =>
        match validate conf (some file) with
        | Except.ok conf2 => Except.ok conf2
        | Except.error err => Except.error err
      | Except.error err => Except.error err
    | none => Except.error "No new config supplied and no path set"

/-- The reload block at the top of the supervisor loop (`src/bin.rs` lines
240-285).  Result: new state, recorded actions and, when the `run` function
returns from inside this block, the returned `ExitState`.  (The catch-all
arm is the `Pipeline | MixerParameters | FilterParameters` parameter-level
case; updating the capture status's `used_channels` view is an effect on a
status struct not tracked here.) -/
def handle_reload {Config : Type} (config_diff : Config → Config → ConfigChange)
    (validate : Config → Option String → Except String Config)
    (load : String → Except String Config)
    (config_path : Option String) (s : RunState Config) :
    RunState Config × List Action × Option ExitState :=
  if s.signal_reload then
    let s1 := { s with signal_reload := false }
    match get_new_config validate load config_path s1.new_config_shared with
    | Except.ok conf =>
      match config_diff s1.active_config conf with
      | ConfigChange.devices =>
        ({ s1 with new_config_shared := some conf },
         [Action.sendExitToCapture, Action.joinPlayback, Action.joinCapture],
         some ExitState.restart)
      | ConfigChange.noChange =>
        ({ s1 with new_config_shared := none }, [], none)
      | _ =>
        ({ s1 with active_config := conf, active_config_shared := some conf,
                   new_config_shared := none },
         [Action.sendPipeConf], none)
    | Except.error _ => (s1, [], none)
  else (s, [], none)

/-- The status-message dispatch of the supervisor loop (`src/bin.rs` lines
320-431), one received message. -/
def handle_status {Config : Type} (s : RunState Config) (msg : StatusMessage) :
    RunState Config × List Action × Option ExitState :=
  match msg with
  | StatusMessage.playbackReady =>
    if s.cap_ready then
      ({ s with pb_ready := true, is_starting := false }, [Action.barrierWait], none)
    else
      ({ s with pb_ready := true }, [], none)
  | StatusMessage.captureReady =>
    if s.pb_ready then
      ({ s with cap_ready := true, is_starting := false, stop_reason := StopReason.stopNone },
       [Action.barrierWait], none)
    else
      ({ s with cap_ready := true }, [], none)
  | StatusMessage.playbackError m =>
    ({ s with stop_reason := StopReason.playbackError m, new_config_shared := none,
              prev_config_shared := some s.active_config },
     Action.sendExitToCapture :: (if s.is_starting then [Action.barrierWait] else [])
       ++ [Action.joinCapture],
     some ExitState.restart)
  | StatusMessage.captureError m =>
    ({ s with stop_reason := StopReason.captureError m, new_config_shared := none,
              prev_config_shared := some s.active_config },
     (if s.is_starting then [Action.barrierWait] else []) ++ [Action.joinPlayback],
     some ExitState.restart)
  | StatusMessage.playbackFormatChange r =>
    ({ s with stop_reason := StopReason.playbackFormatChange r, new_config_shared := none,
              prev_config_shared := some s.active_config },
     Action.sendExitToCapture :: (if s.is_starting then [Action.barrierWait] else [])
       ++ [Action.joinCapture],
     some ExitState.restart)
  | StatusMessage.captureFormatChange r =>
    ({ s with stop_reason := StopReason.captureFormatChange r, new_config_shared := none,
              prev_config_shared := some s.active_config },
     (if s.is_starting then [Action.barrierWait] else []) ++ [Action.joinPlayback],
     some ExitState.restart)
  | StatusMessage.playbackDone =>
    ({ s with stop_reason := if s.stop_reason = StopReason.stopNone then StopReason.done
                             else s.stop_reason,
              prev_config_shared := some s.active_config },
     [], some ExitState.restart)
  | StatusMessage.captureDone => (s, [], none)
  | StatusMessage.setSpeed _ => (s, [Action.sendSetSpeedToCapture], none)

/-- Dispatch of a sequence of status messages, accumulating the recorded
actions in order and stopping at the first message that makes `run` return. -/
def handle_status_list {Config : Type} :
    RunState Config → List StatusMessage → RunState Config × List Action × Option ExitState
  | s, [] => (s, [], none)
  | s, m :: rest =>
    match handle_status s m with
    | (s1, acts, some r) => (s1, acts, some r)
    | (s1, acts, none) =>
      match handle_status_list s1 rest with
      | (s2, acts2, ret2) => (s2, acts ++ acts2, ret2)

/-- The shared slots written by the startup of `run` (`src/bin.rs` lines
161-194) before the worker threads are spawned. -/
structure StartupResult (Config : Type) where
  active_config : Config
  active_config_shared : Option Config
  new_config_shared : Option Config
  signal_reload : Bool
  signal_exit : ℕ
deriving DecidableEq

/-- Startup of `run` (`src/bin.rs` lines 161-194): take the pending config as
the run's active config (returning `Ok(ExitState::Exit)`, modelled as
`Except.error ExitState.exitDone`, when the pending slot is empty), publish
it to the active-config slot, clear the pending slot and both signals. -/
def run_startup {Config : Type} : Option Config → Except ExitState (StartupResult Config)
  | none => Except.error ExitState.exitDone
  | some conf =>
    Except.ok { active_config := conf, active_config_shared := some conf,
                new_config_shared := none, signal_reload := false, signal_exit := 0 }

/-- Outcome of one arm of the outer loop's match on `run`'s result. -/
inductive OuterOutcome where
  | exitCode (code : ℤ)
  | continueLoop
deriving DecidableEq

/-- The outer loop's handling of `run`'s result in `main_process`
(`src/bin.rs` lines 900-917): every arm first sets the active-config slot to
`None`; `Err` exits with code 102 unless in wait mode, `Ok(Exit)` exits with
code 0, `Ok(Restart)` loops. -/
def outer_handle_exit {Config : Type} (wait : Bool) (res : Except String ExitState)
    (_active_config_shared : Option Config) : Option Config × OuterOutcome :=
  match res with
  | Except.error _ =>
    (none, if wait then OuterOutcome.continueLoop else OuterOutcome.exitCode 102)
  | Except.ok ExitState.exitDone => (none, OuterOutcome.exitCode 0)
  | Except.ok ExitState.restart => (none, OuterOutcome.continueLoop)

/-! ## Theorems -/

/-- Claim C8: for every pair of volume levels `v1 ≤ v2` and every reference
level, `get_rel_boost v1 ref ≥ get_rel_boost v2 ref` (monotone nonincreasing
in the volume), and for every input the result lies in the closed interval
`[0, 1]`. -/
theorem get_rel_boost_monotone_clamped :
    (∀ v1 v2 reference : ℚ, v1 ≤ v2 →
        get_rel_boost v2 reference ≤ get_rel_boost v1 reference) ∧
    (∀ level reference : ℚ,
        0 ≤ get_rel_boost level reference ∧ get_rel_boost level reference ≤ 1) := by
  constructor
  · intro v1 v2 reference h
    simp only [get_rel_boost]
    split_ifs <;> linarith
  · intro level reference
    simp only [get_rel_boost]
    split_ifs <;> constructor <;> linarith

/-- Witness for C8 at a concrete input. -/
theorem get_rel_boost_monotone_clamped_witness :
    (0 : ℚ) ≤ 1 ∧ get_rel_boost 1 0 ≤ get_rel_boost 0 0 :=
  ⟨by norm_num, get_rel_boost_monotone_clamped.1 0 1 0 (by norm_num)⟩

/-- Claim C1 (amended): during a ramp from `V0 = ramp_start` to
`V1 = target_volume` over `N = ramptime_in_chunks` chunks of `M = chunksize`
samples, the dB gain applied by `process_waveform` to the `k`-th sample
(1-based) of ramp chunk `j = ramp_step` is
`V0 + (V1 - V0) * ((j-1)*M + (k-1)) / (N*M)` — the sample index enters
0-based, not 1-based as the claim states — and consequently the gain at the
last sample of the final ramp chunk is `V1 - (V1 - V0)/(N*M)`, one
sample-step short of `V1`. -/
theorem loudness_ramp_db_formula (s : Loudness) (k : ℕ)
    (hj1 : 1 ≤ s.ramp_step) (hjN : s.ramp_step ≤ s.ramptime_in_chunks)
    (hk1 : 1 ≤ k) (hkM : k ≤ s.chunksize) :
    rampDb s (k - 1) =
      s.ramp_start + (s.target_volume - s.ramp_start) *
        (((s.ramp_step : ℚ) - 1) * (s.chunksize : ℚ) + ((k : ℚ) - 1)) /
        ((s.ramptime_in_chunks : ℚ) * (s.chunksize : ℚ)) ∧
    (s.ramp_step = s.ramptime_in_chunks → k = s.chunksize →
      rampDb s (k - 1) =
        s.target_volume - (s.target_volume - s.ramp_start) /
          ((s.ramptime_in_chunks : ℚ) * (s.chunksize : ℚ))) := by
  have hNn : 1 ≤ s.ramptime_in_chunks := hj1.trans hjN
  have hN : ((s.ramptime_in_chunks : ℚ)) ≠ 0 := by
    have hp : 0 < s.ramptime_in_chunks := Nat.lt_of_lt_of_le Nat.zero_lt_one hNn
    exact_mod_cast hp.ne'
  have hM : ((s.chunksize : ℚ)) ≠ 0 := by
    have hp : 0 < s.chunksize := Nat.lt_of_lt_of_le Nat.zero_lt_one (hk1.trans hkM)
    exact_mod_cast hp.ne'
  have hkc : ((k - 1 : ℕ) : ℚ) = (k : ℚ) - 1 := by
    push_cast [Nat.cast_sub hk1]
    ring
  constructor
  · unfold rampDb
    rw [hkc]
    field_simp
    ring
  · intro hje hke
    unfold rampDb
    rw [hkc, hje, hke]
    field_simp
    ring

/-- Concrete loudness state used for claim C1: `V0 = 0`, `V1 = 20`, one ramp
chunk (`N = 1`) of two samples (`M = 2`), currently at ramp step `j = 1`. -/
def rampCexState : Loudness :=
  { name := "loudness", ramptime_in_chunks := 1, current_volume := 0,
    target_volume := 20, ramp_start := 0, ramp_step := 1, samplerate := 48000,
    chunksize := 2, reference_level := 0, high_boost := 10, low_boost := 10,
    high_gain := 0, low_gain := 0 }

/-- Counterexample to claim C1 as stated: with `V0 = 0`, `V1 = 20`, `N = 1`,
`M = 2`, `j = 1`, `k = 2` (the last sample of the final ramp chunk), the
claimed formula `V0 + (V1-V0)*((j-1)*M + k)/(N*M)` yields `20` (`= V1`), but
the dB gain the code applies at that sample is `10`. -/
theorem loudness_ramp_db_claim_counterexample :
    rampCexState.ramp_start + (rampCexState.target_volume - rampCexState.ramp_start) *
        (((1 : ℚ) - 1) * (rampCexState.chunksize : ℚ) + (2 : ℚ)) /
        ((rampCexState.ramptime_in_chunks : ℚ) * (rampCexState.chunksize : ℚ)) = 20 ∧
    rampCexState.target_volume = 20 ∧
    rampDb rampCexState (2 - 1) = 10 ∧
    (10 : ℚ) ≠ 20 := by
  refine ⟨?_, rfl, ?_, by norm_num⟩
  · norm_num [rampCexState]
  · norm_num [rampDb, rampCexState]

/-- Witness for the amended claim C1 at the concrete state `rampCexState`
with `k = 2`. -/
theorem loudness_ramp_db_formula_witness :
    1 ≤ rampCexState.ramp_step ∧
    (rampDb rampCexState (2 - 1) =
      rampCexState.ramp_start + (rampCexState.target_volume - rampCexState.ramp_start) *
        (((rampCexState.ramp_step : ℚ) - 1) * (rampCexState.chunksize : ℚ) + ((2 : ℚ) - 1)) /
        ((rampCexState.ramptime_in_chunks : ℚ) * (rampCexState.chunksize : ℚ)) ∧
    (rampCexState.ramp_step = rampCexState.ramptime_in_chunks → 2 = rampCexState.chunksize →
      rampDb rampCexState (2 - 1) =
        rampCexState.target_volume - (rampCexState.target_volume - rampCexState.ramp_start) /
          ((rampCexState.ramptime_in_chunks : ℚ) * (rampCexState.chunksize : ℚ)))) :=
  ⟨by decide, loudness_ramp_db_formula rampCexState 2
    (by decide) (by decide) (by decide) (by decide)⟩

/-- Claim C4 (amended): in `Loudness::process_waveform`, when the shared
volume differs from `target_volume` by more than 0.001 dB and
`ramptime_in_chunks > 0` (the configured `ramp_time` rounds to at least one
chunk duration), a ramp is started: `ramp_start` is set to `current_volume`,
`target_volume` to the shared volume, and `ramp_step` to 1. -/
theorem volume_change_starts_ramp (s : Loudness) (shared_vol : ℚ)
    (hdiff : (0.001 : ℚ) < |shared_vol - s.target_volume|)
    (hramp : 0 < s.ramptime_in_chunks) :
    update_volume_setting s shared_vol =
      { s with ramp_start := s.current_volume, target_volume := shared_vol,
               ramp_step := 1 } := by
  unfold update_volume_setting
  rw [if_pos hdiff, if_pos hramp]

/-- Concrete loudness state for the C4 witness: a two-chunk ramp time. -/
def rampTriggerState : Loudness :=
  { name := "loudness", ramptime_in_chunks := 2, current_volume := -3,
    target_volume := 0, ramp_start := 0, ramp_step := 0, samplerate := 48000,
    chunksize := 1024, reference_level := 0, high_boost := 10, low_boost := 10,
    high_gain := 0, low_gain := 0 }

/-- Witness for the amended claim C4 at a concrete state. -/
theorem volume_change_starts_ramp_witness :
    (0.001 : ℚ) < |5 - rampTriggerState.target_volume| ∧
    update_volume_setting rampTriggerState 5 =
      { rampTriggerState with ramp_start := rampTriggerState.current_volume,
                              target_volume := 5, ramp_step := 1 } :=
  ⟨by norm_num [rampTriggerState], volume_change_starts_ramp rampTriggerState 5
    (by norm_num [rampTriggerState]) (by decide)⟩

/-- Concrete loudness state for the C4 counterexample: built with
`ramp_time = 1` ms, `chunksize = 1024`, `samplerate = 48000`, so
`ramptime_in_chunks = round(1 / 21.33..) = 0` although `ramp_time > 0`. -/
def rampNotTriggeredState : Loudness :=
  { name := "loudness", ramptime_in_chunks := ramptime_in_chunks_of 1 1024 48000,
    current_volume := 0, target_volume := 0, ramp_start := 0, ramp_step := 0,
    samplerate := 48000, chunksize := 1024, reference_level := 0,
    high_boost := 10, low_boost := 10, high_gain := 0, low_gain := 0 }

/-- Counterexample to claim C4 as stated: with configured `ramp_time = 1 > 0`
(ms), `chunksize = 1024` and `samplerate = 48000`, `ramptime_in_chunks` is 0,
and a shared volume differing by more than 0.001 dB does not start a ramp: the
new volume is applied instantly (`ramp_step` stays 0, `current_volume` jumps
to the shared volume). -/
theorem volume_change_no_ramp_counterexample :
    (0 : ℚ) < 1 ∧
    ramptime_in_chunks_of 1 1024 48000 = 0 ∧
    (0.001 : ℚ) < |5 - rampNotTriggeredState.target_volume| ∧
    (update_volume_setting rampNotTriggeredState 5).ramp_step = 0 ∧
    (update_volume_setting rampNotTriggeredState 5).current_volume = 5 ∧
    update_volume_setting rampNotTriggeredState 5 ≠
      { rampNotTriggeredState with ramp_start := rampNotTriggeredState.current_volume,
                                   target_volume := 5, ramp_step := 1 } := by
  have h0 : ramptime_in_chunks_of 1 1024 48000 = 0 := by
    norm_num [ramptime_in_chunks_of, rust_round_as_usize]
  have hupd : update_volume_setting rampNotTriggeredState 5 =
      { rampNotTriggeredState with current_volume := 5, target_volume := 5,
                                   ramp_step := 0 } := by
    unfold update_volume_setting
    rw [if_pos (by norm_num [rampNotTriggeredState]),
        if_neg (by simp [rampNotTriggeredState, h0])]
  refine ⟨by norm_num, h0, by norm_num [rampNotTriggeredState], ?_, ?_, ?_⟩
  · rw [hupd]
  · rw [hupd]
  · rw [hupd]
    simp [rampNotTriggeredState, Loudness.mk.injEq]

/-- Claim C7: when `current_volume` equals `reference_level` (so the relative
boost is 0), no ramp is active (`ramp_step = 0`) and no volume change is
pending (the shared volume is within 0.001 dB of `target_volume`),
`Loudness::process_waveform` skips both shelving biquads — whatever they
would compute (`hb`, `lb` are arbitrary here, the bypass is bit-exact
passthrough) — and its output is the input with every sample multiplied by
the constant gain `10 ^ (current_volume / 20)`; the filter state is
unchanged. -/
theorem loudness_bypass_at_reference (pow10 log10 : ℚ → ℚ)
    (hb lb : ℚ → List ℚ → Option (List ℚ)) (s : Loudness) (shared_vol : ℚ)
    (waveform : List ℚ)
    (hcv : s.current_volume = s.reference_level)
    (hstep : s.ramp_step = 0)
    (hsv : |shared_vol - s.target_volume| ≤ 0.001) :
    process_waveform pow10 log10 hb lb s shared_vol waveform =
      some (s, waveform.map (fun item => item * pow10 (s.current_volume / 20)),
            Except.ok ()) := by
  have h1 : update_volume_setting s shared_vol = s := by
    unfold update_volume_setting
    rw [if_neg (not_lt.mpr hsv)]
  have h2 : get_rel_boost s.current_volume s.reference_level = 0 := by
    norm_num [get_rel_boost, hcv]
  simp [process_waveform, h1, hstep, apply_shelf_biquads, h2]

/-- Concrete loudness state sitting at the reference level with no ramp. -/
def bypassState : Loudness :=
  { name := "loudness", ramptime_in_chunks := 0, current_volume := 0,
    target_volume := 0, ramp_start := 0, ramp_step := 0, samplerate := 48000,
    chunksize := 1024, reference_level := 0, high_boost := 10, low_boost := 10,
    high_gain := 0, low_gain := 0 }

/-- Witness for claim C7 at a concrete input (with biquads that would panic
if they were invoked, showing they are bypassed). -/
theorem loudness_bypass_at_reference_witness :
    |(0 : ℚ) - bypassState.target_volume| ≤ 0.001 ∧
    process_waveform (fun q => q) (fun q => q) (fun _ _ => none) (fun _ _ => none)
      bypassState 0 [3] =
      some (bypassState,
            ([3] : List ℚ).map (fun item => item * (fun q => q) (bypassState.current_volume / 20)),
            Except.ok ()) :=
  ⟨by norm_num [bypassState],
   loudness_bypass_at_reference (fun q => q) (fun q => q) (fun _ _ => none)
     (fun _ _ => none) bypassState 0 [3] rfl rfl (by norm_num [bypassState])⟩

/-- Claim C10: `Loudness::process_waveform` returns `Ok(())` for every input:
whenever it returns at all (a `none` result models a panic from the
`unwrap`ed inner biquad calls), the `Res` value it returns is `Ok(())`, never
an `Err`. -/
theorem process_waveform_returns_ok (pow10 log10 : ℚ → ℚ)
    (hb lb : ℚ → List ℚ → Option (List ℚ)) (s : Loudness) (shared_vol : ℚ)
    (waveform : List ℚ) (out : Loudness × List ℚ × Except String Unit)
    (h : process_waveform pow10 log10 hb lb s shared_vol waveform = some out) :
    out.2.2 = Except.ok () := by
  have key : ∀ (s2 : Loudness) (w : List ℚ),
      apply_shelf_biquads hb lb s2 w = some out → out.2.2 = Except.ok () := by
    intro s2 w hm
    unfold apply_shelf_biquads at hm
    by_cases hrel : 0 < get_rel_boost s2.current_volume s2.reference_level
    · rw [if_pos hrel] at hm
      cases hhb : hb s2.high_gain w with
      | none => rw [hhb] at hm; exact absurd hm (by simp)
      | some w1 =>
        simp only [hhb] at hm
        cases hlb : lb s2.low_gain w1 with
        | none => simp only [hlb] at hm; exact absurd hm (by simp)
        | some w2 =>
          simp only [hlb] at hm
          injection hm with h2
          subst h2
          rfl
    · rw [if_neg hrel] at hm
      injection hm with h2
      subst h2
      rfl
  simp only [process_waveform] at h
  split_ifs at h
  · exact key _ _ h
  · cases hr : ramping_step pow10 log10 (update_volume_setting s shared_vol) waveform with
    | none => rw [hr] at h; exact absurd h (by simp)
    | some p =>
      obtain ⟨s2, w2⟩ := p
      rw [hr] at h
      exact key _ _ h
  · exact key _ _ h

/-- Witness for claim C10 at a concrete input. -/
theorem process_waveform_returns_ok_witness :
    ((bypassState, ([] : List ℚ), (Except.ok () : Except String Unit))).2.2 = Except.ok () :=
  process_waveform_returns_ok (fun q => q) (fun q => q) (fun _ w => some w)
    (fun _ w => some w) bypassState 0 [] (bypassState, [], Except.ok ())
    (by
      have h1 : update_volume_setting bypassState 0 = bypassState := by
        unfold update_volume_setting
        rw [if_neg (by norm_num [bypassState])]
      have h2 : get_rel_boost bypassState.current_volume bypassState.reference_level = 0 := by
        norm_num [get_rel_boost, bypassState]
      have hstep : bypassState.ramp_step = 0 := rfl
      simp [process_waveform, h1, hstep, apply_shelf_biquads, h2])

/-- Claim C2 (amended): when the reload flag is set and the loaded new
configuration fails validation, the supervisor logs the error and continues
running with the existing active configuration — the state is unchanged
except for the cleared reload flag, no commands are sent, no threads are
joined, and `run` does not return — but the pending new-config slot is left
unchanged, not cleared. -/
theorem supervisor_invalid_config_keeps_running {Config : Type}
    (config_diff : Config → Config → ConfigChange)
    (validate : Config → Option String → Except String Config)
    (load : String → Except String Config) (config_path : Option String)
    (s : RunState Config) (e : String)
    (hr : s.signal_reload = true)
    (herr : get_new_config validate load config_path s.new_config_shared =
      Except.error e) :
    handle_reload config_diff validate load config_path s =
      ({ s with signal_reload := false }, [], none) := by
  simp [handle_reload, hr, herr]

/-- Concrete supervisor state with the reload flag set and an (invalid)
pending config `7`, active config `3`. -/
def invalidReloadState : RunState ℕ :=
  { is_starting := false, pb_ready := true, cap_ready := true, active_config := 3,
    active_config_shared := some 3, new_config_shared := some 7,
    prev_config_shared := none, stop_reason := StopReason.stopNone,
    signal_reload := true, signal_exit := 0 }

/-- Counterexample to claim C2 as stated: after a reload whose validation
fails, the pending new-config slot still holds the rejected config (`some 7`)
— it is not cleared. -/
theorem invalid_config_pending_not_cleared :
    (handle_reload (fun _ _ => ConfigChange.noChange)
        (fun _ _ => Except.error "invalid") (fun _ => Except.error "nofile")
        none invalidReloadState).1.new_config_shared = some 7 ∧
    (some 7 : Option ℕ) ≠ none := by
  exact ⟨rfl, by simp⟩

/-- Witness for the amended claim C2 at a concrete state. -/
theorem supervisor_invalid_config_keeps_running_witness :
    invalidReloadState.signal_reload = true ∧
    handle_reload (fun _ _ => ConfigChange.noChange)
        (fun _ _ => Except.error "invalid") (fun _ => Except.error "nofile")
        none invalidReloadState =
      ({ invalidReloadState with signal_reload := false }, [], none) :=
  ⟨rfl, supervisor_invalid_config_keeps_running _ _ _ _ invalidReloadState "invalid" rfl rfl⟩

/-- Claim C5: when a configuration diff is classified as `Devices`, the
supervisor sends `Exit` to the capture worker, joins the playback handle and
then the capture handle (in that order), stores the new configuration into
the pending new-config slot, and `run` returns `ExitState::Restart`. -/
theorem supervisor_devices_change_restart {Config : Type}
    (config_diff : Config → Config → ConfigChange)
    (validate : Config → Option String → Except String Config)
    (load : String → Except String Config) (config_path : Option String)
    (s : RunState Config) (conf : Config)
    (hr : s.signal_reload = true)
    (hok : get_new_config validate load config_path s.new_config_shared =
      Except.ok conf)
    (hdiff : config_diff s.active_config conf = ConfigChange.devices) :
    handle_reload config_diff validate load config_path s =
      ({ s with signal_reload := false, new_config_shared := some conf },
       [Action.sendExitToCapture, Action.joinPlayback, Action.joinCapture],
       some ExitState.restart) := by
  simp [handle_reload, hr, hok, hdiff]

/-- Concrete supervisor state with the reload flag set and a pending config
`9` that differs from the active config at the `Devices` level. -/
def devicesReloadState : RunState ℕ :=
  { invalidReloadState with new_config_shared := some 9 }

/-- Witness for claim C5 at a concrete state. -/
theorem supervisor_devices_change_restart_witness :
    devicesReloadState.signal_reload = true ∧
    handle_reload (fun _ _ => ConfigChange.devices) (fun c _ => Except.ok c)
        (fun _ => Except.error "nofile") none devicesReloadState =
      ({ devicesReloadState with signal_reload := false, new_config_shared := some 9 },
       [Action.sendExitToCapture, Action.joinPlayback, Action.joinCapture],
       some ExitState.restart) :=
  ⟨rfl, supervisor_devices_change_restart _ _ _ _ devicesReloadState 9 rfl rfl rfl⟩

/-- Claim C6: on receiving `CaptureError(m)`, the supervisor releases the
barrier if still in the starting phase, sets the shared stop reason to
`CaptureError(m)`, joins the playback handle, clears the pending new-config
slot (and records the active config as the previous config), and `run`
returns `ExitState::Restart`. -/
theorem supervisor_capture_error_restart {Config : Type} (s : RunState Config)
    (m : String) :
    handle_status s (StatusMessage.captureError m) =
      ({ s with stop_reason := StopReason.captureError m, new_config_shared := none,
                prev_config_shared := some s.active_config },
       (if s.is_starting then [Action.barrierWait] else []) ++ [Action.joinPlayback],
       some ExitState.restart) := rfl

/-- Claim C3 (amended): from a starting supervisor state in which neither
ready message has been seen, receiving `PlaybackReady` and `CaptureReady` in
either order makes the supervisor wait on the 4-party barrier exactly once
and leave the starting phase; but the shared stop reason is reset to `None`
only when `CaptureReady` arrives second — in the order
`CaptureReady, PlaybackReady` the stop reason is left unchanged. -/
theorem supervisor_ready_pair {Config : Type} (s : RunState Config)
    (hpb : s.pb_ready = false) (hcap : s.cap_ready = false)
    (hst : s.is_starting = true) :
    handle_status_list s [StatusMessage.playbackReady, StatusMessage.captureReady] =
      ({ s with pb_ready := true, cap_ready := true, is_starting := false,
                stop_reason := StopReason.stopNone },
       [Action.barrierWait], none) ∧
    handle_status_list s [StatusMessage.captureReady, StatusMessage.playbackReady] =
      ({ s with pb_ready := true, cap_ready := true, is_starting := false },
       [Action.barrierWait], none) := by
  refine ⟨?_, ?_⟩ <;>
    simp [handle_status_list, handle_status, hpb, hcap, hst]

/-- Concrete starting supervisor state whose stop reason still records the
previous run's `Done`. -/
def readyStartState : RunState ℕ :=
  { is_starting := true, pb_ready := false, cap_ready := false, active_config := 0,
    active_config_shared := some 0, new_config_shared := none,
    prev_config_shared := none, stop_reason := StopReason.done,
    signal_reload := false, signal_exit := 0 }

/-- Counterexample to claim C3 as stated: in the arrival order
`CaptureReady, PlaybackReady` the shared stop reason is not set to `None` —
it keeps its previous value `Done`. -/
theorem ready_order_stop_reason_counterexample :
    (handle_status_list readyStartState
        [StatusMessage.captureReady, StatusMessage.playbackReady]).1.stop_reason =
      StopReason.done ∧
    StopReason.done ≠ StopReason.stopNone :=
  ⟨rfl, by decide⟩

/-- Witness for the amended claim C3 at the concrete state `readyStartState`. -/
theorem supervisor_ready_pair_witness :
    readyStartState.pb_ready = false ∧
    (handle_status_list readyStartState
        [StatusMessage.playbackReady, StatusMessage.captureReady] =
      ({ readyStartState with
          pb_ready := true, cap_ready := true, is_starting := false,
          stop_reason := StopReason.stopNone },
       [Action.barrierWait], none) ∧
    handle_status_list readyStartState
        [StatusMessage.captureReady, StatusMessage.playbackReady] =
      ({ readyStartState with pb_ready := true, cap_ready := true, is_starting := false },
       [Action.barrierWait], none)) :=
  ⟨rfl, supervisor_ready_pair readyStartState rfl rfl rfl⟩

/-- Claim C9: after `run` returns with any outcome (`Err`, `Exit` or
`Restart`), the outer loop sets the active-config slot to `None` before
waiting or restarting; and at startup `run` publishes the taken pending
config as `Some` in the active-config slot while clearing the pending slot
(so the active slot is `Some` only while a run is in progress). -/
theorem active_config_slot_lifecycle :
    (∀ (Config : Type) (wait : Bool) (res : Except String ExitState)
        (prev_active : Option Config),
      (outer_handle_exit wait res prev_active).1 = none) ∧
    (∀ (Config : Type) (conf : Config),
      run_startup (some conf) =
        Except.ok { active_config := conf, active_config_shared := some conf,
                    new_config_shared := none, signal_reload := false,
                    signal_exit := 0 }) := by
  refine ⟨fun Config wait res prev_active => ?_, fun Config conf => rfl⟩
  rcases res with e | st
  · rfl
  · rcases st <;> rfl

end CamillaDSP
